import Mathlib

/-!
Formal model of the BingoSpeaking exam orchestrator (a Shanghai oral-exam
simulator).  The definitions below are shallow embeddings of the data model
in types.ts, the orchestration state machine of the main App component
(section flows, handleRecordingComplete, handleSectionRest, runTimer,
getRecordDuration, startGeneration, processExamResults), the AudioRecorder
component (start / stop / cleanup), and the scoring entry points of
geminiService.ts.  Theorems about exam runs, rest intervals, the preamble
rule, the scoring loop and the recorder resource handling follow.
-/

namespace BingoSpeaking

/-- Section tags of the exam (TestSectionType in types.ts): Part II
Speaking sections A-D and Part III Listening sections A-B. -/
inductive TestSectionType
  | SpeakingA
  | SpeakingB
  | SpeakingC
  | SpeakingD
  | ListeningA
  | ListeningB
deriving DecidableEq, Repr

/-- An audio blob, modelled by its byte contents (a JS Blob is an opaque
byte container here; the orchestrator never inspects it). -/
abbrev Blob := List Nat

/-- speakingA section of TestPaper (types.ts): sentences for reading aloud. -/
structure SpeakingASection where
  items : List String
deriving DecidableEq, Repr

/-- speakingB section of TestPaper: one reading passage. -/
structure SpeakingBSection where
  text : String
deriving DecidableEq, Repr

/-- One situational item of speakingC. -/
structure SituationItem where
  situation : String
deriving DecidableEq, Repr

/-- speakingC section of TestPaper: situational questions. -/
structure SpeakingCSection where
  items : List SituationItem
deriving DecidableEq, Repr

/-- speakingD section of TestPaper: picture talk. -/
structure SpeakingDSection where
  imageDescription : String
  givenSentence : String
  imageUrl : Option String
deriving DecidableEq, Repr

/-- listeningA section of TestPaper: fast-response prompts. -/
structure ListeningASection where
  questions : List String
deriving DecidableEq, Repr

/-- One listeningB question (types.ts): question text, answer key,
fact/opinion type, and per-question preparation and recording durations.
Durations are JS numbers, modelled as Int (JSON may carry any number;
the generator performs no validation). -/
structure ListeningBQuestion where
  question : String
  answerKey : String
  type : String
  prepTime : Int
  recordTime : Int
deriving DecidableEq, Repr

/-- listeningB section of TestPaper: one passage (read twice) plus its
sub-questions. -/
structure ListeningBSection where
  passage : String
  questions : List ListeningBQuestion
deriving DecidableEq, Repr

/-- TestPaper (types.ts): the full exam plan loaded once at exam start. -/
structure TestPaper where
  id : String
  speakingA : SpeakingASection
  speakingB : SpeakingBSection
  speakingC : SpeakingCSection
  speakingD : SpeakingDSection
  listeningA : ListeningASection
  listeningB : ListeningBSection
deriving DecidableEq, Repr

/-- UserResponse (types.ts): one record per completed recording. -/
structure UserResponse where
  sectionType : TestSectionType
  audioBlob : Blob
  referenceText : String
  context : String
  itemIndex : Nat
  subIndex : Nat
deriving DecidableEq, Repr

/-- EvaluationResult (types.ts).  Numeric payloads come from the external
scorer and are never computed by the orchestrator; they are modelled as
Int. -/
structure EvaluationResult where
  score : Int
  accuracy : Int
  pronunciation : Int
  fluency : Int
  feedback : String
  transcription : String
deriving DecidableEq, Repr

/-- SectionScore (types.ts): the per-section aggregate of scored items. -/
structure SectionScore where
  sectionType : TestSectionType
  items : List EvaluationResult
deriving DecidableEq, Repr

/-- AppStatus (types.ts). -/
inductive AppStatus
  | Idle
  | GeneratingTest
  | TestReady
  | InProgress
  | Scoring
  | Review
deriving DecidableEq, Repr

/-- Reference/context resolution of handleRecordingComplete (App lines
259-287): builds the UserResponse for the item just recorded.  Out-of-range
list indexing (impossible in the runs verified below) is modelled by a
default element, mirroring nothing deeper than the TS undefined. -/
def mkUserResponse (paper : TestPaper) (sec : TestSectionType)
    (itemIndex subIndex : Nat) (audioBlob : Blob) : UserResponse :=
  match sec with
  | .SpeakingA =>
      { sectionType := sec, audioBlob, itemIndex, subIndex
        referenceText := paper.speakingA.items.getD itemIndex ""
        context := "" }
  | .SpeakingB =>
      { sectionType := sec, audioBlob, itemIndex, subIndex
        referenceText := paper.speakingB.text
        context := "" }
  | .SpeakingC =>
      { sectionType := sec, audioBlob, itemIndex, subIndex
        referenceText := "The student must ask TWO relevant questions about the situation. One special (wh-) question is required."
        context := (paper.speakingC.items.getD itemIndex ⟨""⟩).situation }
  | .SpeakingD =>
      { sectionType := sec, audioBlob, itemIndex, subIndex
        referenceText := "Story starting with: " ++ paper.speakingD.givenSentence
        context := paper.speakingD.imageDescription }
  | .ListeningA =>
      { sectionType := sec, audioBlob, itemIndex, subIndex
        referenceText := "Appropriate response to the prompt."
        context := "Prompt: " ++ paper.listeningA.questions.getD itemIndex "" }
  | .ListeningB =>
      let q := paper.listeningB.questions.getD itemIndex ⟨"", "", "", 0, 0⟩
      { sectionType := sec, audioBlob, itemIndex, subIndex
        referenceText :=
          if q.answerKey = "" then
            (if q.type = "fact" then "Factual answer from text" else "Opinionated answer")
          else q.answerKey
        context := "Passage: " ++ paper.listeningB.passage ++ ". Question: " ++ q.question }

/-- Observable steps emitted while the state machine drives the exam:
audio playbacks awaited by the section flows, preparation countdowns
(runTimer), the collection of one response (handleRecordingComplete
appending to userResponses), and the inter-section rest interval
(handleSectionRest, a 10 second countdown). -/
inductive ExamEvent
  | playSituation (idx : Nat)
  | playFastPrompt (idx : Nat)
  | playPassage
  | playQuestion (idx : Nat)
  | prep (seconds : Int)
  | record (sec : TestSectionType) (item : Nat) (sub : Nat)
  | rest
deriving DecidableEq, Repr

/-- runSpeakingA (App 89-105): instruction, 30 s preparation, recording. -/
def runSpeakingA (_index : Nat) : List ExamEvent :=
  [.prep 30]

/-- runSpeakingB (App 108-123): instruction, 60 s preparation, recording. -/
def runSpeakingB : List ExamEvent :=
  [.prep 60]

/-- runSpeakingC (App 126-157): the situation audio is played, then
recording opens (no preparation countdown). -/
def runSpeakingC (idx : Nat) : List ExamEvent :=
  [.playSituation idx]

/-- runSpeakingD (App 160-189): instruction, 60 s preparation, recording. -/
def runSpeakingD : List ExamEvent :=
  [.prep 60]

/-- runListeningA (App 192-207): the prompt audio is played, then
recording opens. -/
def runListeningA (index : Nat) : List ExamEvent :=
  [.playFastPrompt index]

/-- runListeningB (App 210-244): when the sub-question index is 0 the
passage is played twice; then the question audio is played, the
per-question preparation countdown runs, and recording opens. -/
def runListeningB (paper : TestPaper) (qIndex : Nat) : List ExamEvent :=
  (if qIndex = 0 then [.playPassage, .playPassage] else []) ++
    (let q := paper.listeningB.questions.getD qIndex ⟨"", "", "", 0, 0⟩
     [.playQuestion qIndex, .prep q.prepTime])

/-- The orchestrator cursor (App state hooks currentSection, itemIndex,
subItemIndex). -/
structure RunState where
  currentSection : TestSectionType
  itemIndex : Nat
  subItemIndex : Nat
deriving DecidableEq, Repr

/-- startTest (App 66-74) initialises the cursor at SpeakingA item 0. -/
def initialRunState : RunState :=
  { currentSection := .SpeakingA, itemIndex := 0, subItemIndex := 0 }

/-- The state-machine part of handleRecordingComplete (App 291-365):
after the response for the current item is appended, either advance to
the next item of the same section (no rest), or run handleSectionRest
and enter the next section at item 0, or - after the last ListeningB
question - move to AppStatus.Scoring (returned as none).  The comparisons
mirror the TS itemIndex < items.length - 1 guards. -/
def advanceAfterRecording (paper : TestPaper) (st : RunState) :
    List ExamEvent × Option RunState :=
  match st.currentSection with
  | .SpeakingA =>
      if st.itemIndex < paper.speakingA.items.length - 1 then
        ([], some { st with itemIndex := st.itemIndex + 1 })
      else
        ([.rest], some { currentSection := .SpeakingB, itemIndex := 0,
                         subItemIndex := st.subItemIndex })
  | .SpeakingB =>
      ([.rest], some { currentSection := .SpeakingC, itemIndex := 0,
                       subItemIndex := 0 })
  | .SpeakingC =>
      if st.itemIndex < paper.speakingC.items.length - 1 then
        ([], some { st with itemIndex := st.itemIndex + 1 })
      else
        ([.rest], some { currentSection := .SpeakingD, itemIndex := 0,
                         subItemIndex := st.subItemIndex })
  | .SpeakingD =>
      ([.rest], some { currentSection := .ListeningA, itemIndex := 0,
                       subItemIndex := st.subItemIndex })
  | .ListeningA =>
      if st.itemIndex < paper.listeningA.questions.length - 1 then
        ([], some { st with itemIndex := st.itemIndex + 1 })
      else
        ([.rest], some { currentSection := .ListeningB, itemIndex := 0,
                         subItemIndex := st.subItemIndex })
  | .ListeningB =>
      if st.itemIndex < paper.listeningB.questions.length - 1 then
        ([], some { st with itemIndex := st.itemIndex + 1 })
      else
        ([], none)

/-- Dispatch of the per-section flow for the current cursor (the
runSpeakingA ... runListeningB calls made by startTest and
handleRecordingComplete). -/
def runSectionFlow (paper : TestPaper) (st : RunState) : List ExamEvent :=
  match st.currentSection with
  | .SpeakingA => runSpeakingA st.itemIndex
  | .SpeakingB => runSpeakingB
  | .SpeakingC => runSpeakingC st.itemIndex
  | .SpeakingD => runSpeakingD
  | .ListeningA => runListeningA st.itemIndex
  | .ListeningB => runListeningB paper st.itemIndex

/-- Drives the exam from a cursor state.  captures k is the outcome of
the k-th recording phase: some blob when the AudioRecorder start
succeeded and its onstop handler delivered a blob to
handleRecordingComplete; none when start threw (the catch at
AudioRecorder 86-89 only logs and alerts, onRecordingComplete is never
invoked, so the run stalls in the recording phase: no response is
appended and no further flow runs).  Returns the emitted events, the
accumulated userResponses, and whether AppStatus.Scoring was reached.
Fuel bounds the number of items processed. -/
def runExam (paper : TestPaper) (captures : Nat → Option Blob) :
    Nat → Nat → RunState → List ExamEvent × List UserResponse × Bool
  | 0, _, _ => ([], [], false)
  | fuel + 1, k, st =>
    let flowEvents := runSectionFlow paper st
    match captures k with
    | none => (flowEvents, [], false)
    | some blob =>
      let resp := mkUserResponse paper st.currentSection st.itemIndex st.subItemIndex blob
      let recEvent := ExamEvent.record st.currentSection st.itemIndex st.subItemIndex
      match advanceAfterRecording paper st with
      | (restEvents, none) =>
          (flowEvents ++ [recEvent] ++ restEvents, [resp], true)
      | (restEvents, some st2) =>
          let tail := runExam paper captures fuel (k + 1) st2
          (flowEvents ++ [recEvent] ++ restEvents ++ tail.1,
           resp :: tail.2.1, tail.2.2)

/-- A full exam run from startTest. -/
def runTest (paper : TestPaper) (captures : Nat → Option Blob) (fuel : Nat) :
    List ExamEvent × List UserResponse × Bool :=
  runExam paper captures fuel 0 initialRunState

/-- Total item count across all sections: one recorded item per speakingA
sentence, one for the speakingB passage, one per speakingC situation, one
for the speakingD picture, one per listeningA prompt and one per
listeningB question. -/
def totalItemCount (paper : TestPaper) : Nat :=
  paper.speakingA.items.length + 1 + paper.speakingC.items.length + 1 +
    paper.listeningA.questions.length + paper.listeningB.questions.length

/-- Recogniser for the rest event. -/
def isRest : ExamEvent → Bool
  | .rest => true
  | _ => false

/-- Recogniser for record and rest events (the sub-trace that shows where
rest intervals sit relative to collected responses). -/
def isRecordOrRest : ExamEvent → Bool
  | .record _ _ _ => true
  | .rest => true
  | _ => false

/-- Recogniser for the passage playback event. -/
def isPassagePlay : ExamEvent → Bool
  | .playPassage => true
  | _ => false

/-- Recogniser for passage playbacks and ListeningB record events (the
sub-trace that shows where the preamble sits relative to the
sub-questions). -/
def isPassageOrLBRecord : ExamEvent → Bool
  | .playPassage => true
  | .record .ListeningB _ _ => true
  | _ => false

/-- runTimer (App 77-84): displays seconds, seconds-1, ..., 1, one tick
per second, then 0.  The loop has no abort check: the returned tick list
is always the full countdown.  A nonpositive duration runs zero
iterations, as the TS for-loop does. -/
def runTimerTicks : Nat → List Nat
  | 0 => []
  | n + 1 => (n + 1) :: runTimerTicks n

/-- The control callbacks the App wires to interactive elements
(render section, App 418-526, plus the AudioRecorder buttons):
startGeneration from Idle, startTest from TestReady, restart from Review
(TestResult onRestart), and the recorder stop button during recording.
No other control entry point exists. -/
def controlEntryPoints : List String :=
  ["startGeneration", "startTest", "restart", "stopRecordingEarly"]

/-- Which of the fallible steps of AudioRecorder.start succeed, in source
order (AudioRecorder 37-90): getUserMedia, the AudioContext and analyser
wiring, and the MediaRecorder construction. -/
structure SetupOutcome where
  getUserMediaOk : Bool
  audioContextOk : Bool
  mediaRecorderOk : Bool
deriving DecidableEq, Repr

/-- Resource state when AudioRecorder.start returns: whether the
microphone stream was acquired (streamRef set), whether its tracks were
stopped before start returned, whether mediaRecorder.start was reached,
and whether onRecordingComplete fired during start (it never does). -/
structure StartResult where
  streamAcquired : Bool
  streamReleased : Bool
  recordingStarted : Bool
  callbackInvoked : Bool
deriving DecidableEq, Repr

/-- AudioRecorder.start (37-90).  The catch block (86-89) only logs and
alerts: it neither stops the acquired stream tracks nor invokes the
completion callback, so a failure after getUserMedia leaves the stream
held.  On full success recording runs and the stream stays held until the
onstop handler calls cleanup. -/
def startRecorder (o : SetupOutcome) : StartResult :=
  if o.getUserMediaOk = false then
    { streamAcquired := false, streamReleased := false,
      recordingStarted := false, callbackInvoked := false }
  else if o.audioContextOk = false then
    { streamAcquired := true, streamReleased := false,
      recordingStarted := false, callbackInvoked := false }
  else if o.mediaRecorderOk = false then
    { streamAcquired := true, streamReleased := false,
      recordingStarted := false, callbackInvoked := false }
  else
    { streamAcquired := true, streamReleased := false,
      recordingStarted := true, callbackInvoked := false }

/-- The mediaRecorder.onstop handler plus cleanup (AudioRecorder 65-69 and
99-107): concatenates the nonempty data chunks into the delivered blob and
stops the stream tracks.  This same path runs on auto-stop at the time
limit and on an early manual stop. -/
def recorderOnStop (chunks : List Blob) : Blob × Bool :=
  ((chunks.filter (fun c => c.length > 0)).flatten, true)

/-- getRecordDuration (App 369-380).  The ListeningB arm is
questions[itemIndex]?.recordTime with a JS falsy-or fallback:
30 is substituted exactly when the question is missing or its recordTime
is 0; any nonzero recordTime, including a negative one, passes through. -/
def getRecordDuration (testPaper : Option TestPaper)
    (currentSection : TestSectionType) (itemIndex : Nat) : Int :=
  match testPaper with
  | none => 10
  | some paper =>
    match currentSection with
    | .SpeakingA => 15
    | .SpeakingB => 30
    | .SpeakingC => 20
    | .SpeakingD => 60
    | .ListeningA => 5
    | .ListeningB =>
      match paper.listeningB.questions[itemIndex]? with
      | none => 30
      | some q => if q.recordTime = 0 then 30 else q.recordTime

/-- generateTestPaper (geminiService 10-100) parses the generated JSON and
returns it as-is: no duration (or any other) validation is applied to the
parsed paper.  Modelled on parsed papers as unconditional acceptance. -/
def generateTestPaperAccept (parsed : TestPaper) : Option TestPaper :=
  some parsed

/-- startGeneration (App 40-64): on generation success the paper is stored
and the status becomes TestReady; on failure an alert is shown and the
status returns to Idle. -/
def startGeneration (result : Option TestPaper) : AppStatus × Option TestPaper :=
  match result with
  | some paper => (AppStatus.TestReady, some paper)
  | none => (AppStatus.Idle, none)

/-- Per-submission outcome of the external scoring pipeline: blobToBase64
may reject (geminiService 177, awaited outside the try, so evaluateAudio
itself rejects), or the generateContent call / JSON parse may throw
(caught at geminiService 298-301, turned into the zero default result),
or a parsed result is returned. -/
inductive ScoreOutcome
  | blobError
  | apiError
  | ok (r : EvaluationResult)
deriving DecidableEq, Repr

/-- The default result evaluateAudio returns when the Gemini call fails
(geminiService 300). -/
def defaultEvaluationResult : EvaluationResult :=
  { score := 0, accuracy := 0, pronunciation := 0, fluency := 0,
    feedback := "Evaluation failed", transcription := "" }

/-- evaluateAudio (geminiService 171-302), abstracted over the external
outcomes: a blobToBase64 rejection propagates (Except.error), a Gemini
failure is swallowed into the default result, a success returns the
parsed result. -/
def evaluateAudio (outcome : ScoreOutcome) : Except Unit EvaluationResult :=
  match outcome with
  | .blobError => .error ()
  | .apiError => .ok defaultEvaluationResult
  | .ok r => .ok r

/-- getOrAddSection plus the items.push of processExamResults (App
391-398, 406-407): append the result to the first section whose tag
matches, or push a new section at the end. -/
def addScore : List SectionScore → TestSectionType → EvaluationResult →
    List SectionScore
  | [], t, r => [{ sectionType := t, items := [r] }]
  | s :: rest, t, r =>
    if s.sectionType = t then
      { sectionType := s.sectionType, items := s.items ++ [r] } :: rest
    else
      s :: addScore rest t r

/-- The for-loop of processExamResults (App 400-411): for each response,
in capture order, set the progress counter to (i + 1, total), submit to
evaluateAudio, and on success push the result into the matching section;
a rejection is caught and logged, the item omitted.  Returns the progress
values in the order they were set and the final aggregate. -/
def scoringLoop (outcomes : Nat → ScoreOutcome) (total : Nat) :
    List UserResponse → Nat → List SectionScore →
    List (Nat × Nat) × List SectionScore
  | [], _, acc => ([], acc)
  | resp :: rest, i, acc =>
    let acc2 :=
      match evaluateAudio (outcomes i) with
      | .ok r => addScore acc resp.sectionType r
      | .error _ => acc
    let tail := scoringLoop outcomes total rest (i + 1) acc2
    ((i + 1, total) :: tail.1, tail.2)

/-- processExamResults (App 389-414): runs the sequential scoring loop
over the whole response log, stores the aggregate, and moves the status
to Review. -/
def processExamResults (userResponses : List UserResponse)
    (outcomes : Nat → ScoreOutcome) :
    List (Nat × Nat) × List SectionScore × AppStatus :=
  let looped := scoringLoop outcomes userResponses.length userResponses 0 []
  (looped.1, looped.2, AppStatus.Review)

/-- Grouping of scored pairs by section tag, as performed cumulatively by
the scoring loop (a left fold of addScore from the empty aggregate). -/
def groupScores (pairs : List (TestSectionType × EvaluationResult)) :
    List SectionScore :=
  pairs.foldl (fun acc p => addScore acc p.1 p.2) []

/-- The (section tag, result) pairs of the submissions that succeed, in
original capture order, starting from submission index i. -/
def successPairs (outcomes : Nat → ScoreOutcome) :
    List UserResponse → Nat → List (TestSectionType × EvaluationResult)
  | [], _ => []
  | resp :: rest, i =>
    match evaluateAudio (outcomes i) with
    | .ok r => (resp.sectionType, r) :: successPairs outcomes rest (i + 1)
    | .error _ => successPairs outcomes rest (i + 1)

/-- The items recorded for a tag in an aggregate, resolved exactly as the
code resolves sections: the first entry whose tag matches (the
newScores.find of getOrAddSection). -/
def itemsFor (scores : List SectionScore) (t : TestSectionType) :
    List EvaluationResult :=
  match scores.find? (fun s => decide (s.sectionType = t)) with
  | some s => s.items
  | none => []

/-- Total number of score records across an aggregate. -/
def sumItems (scores : List SectionScore) : Nat :=
  (scores.map (fun s => s.items.length)).sum

/-- A concrete standard-shape paper (2 sentences, 1 passage, 2 situations,
1 picture, 4 fast-response prompts, 1 passage with 2 questions), used to
instantiate witnesses and counterexamples. -/
def stdPaper : TestPaper :=
  { id := "paper-1"
    speakingA := { items := ["sentence one", "sentence two"] }
    speakingB := { text := "reading passage" }
    speakingC := { items := [{ situation := "situation one" },
                             { situation := "situation two" }] }
    speakingD := { imageDescription := "four panels",
                   givenSentence := "One day,", imageUrl := none }
    listeningA := { questions := ["prompt one", "prompt two",
                                  "prompt three", "prompt four"] }
    listeningB := { passage := "listening passage"
                    questions := [{ question := "question one",
                                    answerKey := "key one", type := "fact",
                                    prepTime := 30, recordTime := 30 },
                                  { question := "question two",
                                    answerKey := "key two", type := "opinion",
                                    prepTime := 60, recordTime := 60 }] } }

/-- stdPaper with the first listeningB recording duration set to 0. -/
def zeroRecordPaper : TestPaper :=
  { stdPaper with
    listeningB := { passage := "listening passage"
                    questions := [{ question := "question one",
                                    answerKey := "key one", type := "fact",
                                    prepTime := 30, recordTime := 0 },
                                  { question := "question two",
                                    answerKey := "key two", type := "opinion",
                                    prepTime := 60, recordTime := 60 }] } }

/-- stdPaper with the first listeningB recording duration set to -1. -/
def negRecordPaper : TestPaper :=
  { stdPaper with
    listeningB := { passage := "listening passage"
                    questions := [{ question := "question one",
                                    answerKey := "key one", type := "fact",
                                    prepTime := 30, recordTime := -1 },
                                  { question := "question two",
                                    answerKey := "key two", type := "opinion",
                                    prepTime := 60, recordTime := 60 }] } }

/-- Helper: addScore grows the total number of score records by exactly
one. -/
theorem sumItems_addScore (acc : List SectionScore) (t : TestSectionType)
    (r : EvaluationResult) :
    sumItems (addScore acc t r) = sumItems acc + 1 := by
  induction acc with
  | nil => simp [addScore, sumItems]
  | cons s rest ih =>
    by_cases h : s.sectionType = t
    · simp [addScore, h, sumItems]
      omega
    · simp [addScore, h, sumItems] at ih ⊢
      omega

/-- Helper: folding addScore over a pair list adds one record per pair. -/
theorem sumItems_foldl (pairs : List (TestSectionType × EvaluationResult)) :
    ∀ acc, sumItems (pairs.foldl (fun a p => addScore a p.1 p.2) acc) =
      sumItems acc + pairs.length := by
  induction pairs with
  | nil => intro acc; simp
  | cons p rest ih =>
    intro acc
    simp only [List.foldl_cons, List.length_cons, ih, sumItems_addScore]
    omega

/-- Helper: the aggregate built by the scoring loop is the addScore fold
over the successful submissions in capture order. -/
theorem scoringLoop_scores (outcomes : Nat → ScoreOutcome) (total : Nat) :
    ∀ (rs : List UserResponse) (i : Nat) (acc : List SectionScore),
      (scoringLoop outcomes total rs i acc).2 =
        (successPairs outcomes rs i).foldl (fun a p => addScore a p.1 p.2) acc := by
  intro rs
  induction rs with
  | nil => intro i acc; rfl
  | cons resp rest ih =>
    intro i acc
    cases hev : evaluateAudio (outcomes i) with
    | ok r => simp [scoringLoop, successPairs, hev, ih]
    | error e => simp [scoringLoop, successPairs, hev, ih]

/-- Helper: the progress values set by the scoring loop are
(i + 1, total), (i + 2, total), ..., one per submission in order. -/
theorem scoringLoop_progress (outcomes : Nat → ScoreOutcome) (total : Nat) :
    ∀ (rs : List UserResponse) (i : Nat) (acc : List SectionScore),
      (scoringLoop outcomes total rs i acc).1 =
        (List.range rs.length).map (fun j => (i + j + 1, total)) := by
  intro rs
  induction rs with
  | nil => intro i acc; rfl
  | cons resp rest ih =>
    intro i acc
    have hfun : ((fun j => (i + j + 1, total)) ∘ Nat.succ) =
        (fun j => ((i + 1) + j + 1, total)) := by
      funext j
      have h2 : i + (j + 1) + 1 = (i + 1) + j + 1 := by omega
      simp [Function.comp, Nat.succ_eq_add_one, h2]
    simp only [scoringLoop, List.length_cons, List.range_succ_eq_map,
      List.map_cons, List.map_map, ih, hfun, Nat.add_zero]

/-- Helper: itemsFor of the empty aggregate. -/
theorem itemsFor_nil (u : TestSectionType) : itemsFor [] u = [] := rfl

/-- Helper: unfolding itemsFor over a cons cell (the first matching tag
wins, as in newScores.find). -/
theorem itemsFor_cons (s : SectionScore) (rest : List SectionScore)
    (u : TestSectionType) :
    itemsFor (s :: rest) u =
      if s.sectionType = u then s.items else itemsFor rest u := by
  by_cases h : s.sectionType = u
  · simp [itemsFor, List.find?_cons_of_pos, h]
  · simp [itemsFor, List.find?_cons_of_neg, h]

/-- Helper: addScore appends the new record at the end of exactly the
matching tag's item list and leaves every other tag unchanged. -/
theorem itemsFor_addScore (acc : List SectionScore) (t u : TestSectionType)
    (r : EvaluationResult) :
    itemsFor (addScore acc t r) u =
      if u = t then itemsFor acc t ++ [r] else itemsFor acc u := by
  induction acc with
  | nil =>
    by_cases h : u = t
    · subst h; simp [addScore, itemsFor_cons, itemsFor_nil]
    · have h2 : ¬ t = u := fun hh => h hh.symm
      simp [addScore, itemsFor_cons, h, h2, itemsFor_nil]
  | cons s rest ih =>
    by_cases hst : s.sectionType = t
    · by_cases hu : u = t
      · subst hu
        simp [addScore, hst, itemsFor_cons]
      · have h2 : ¬ t = u := fun hh => hu hh.symm
        simp [addScore, hst, itemsFor_cons, hu, h2]
    · by_cases hu : u = t
      · subst hu
        simp [addScore, hst, itemsFor_cons, ih, hst]
      · simp [addScore, hst, itemsFor_cons, ih, hu]

/-- Helper: folding addScore from any aggregate appends, per tag, the
filtered results of the pair list in order. -/
theorem itemsFor_groupScores_aux
    (pairs : List (TestSectionType × EvaluationResult)) :
    ∀ (acc : List SectionScore) (t : TestSectionType),
      itemsFor (pairs.foldl (fun a p => addScore a p.1 p.2) acc) t =
        itemsFor acc t ++
          (pairs.filter (fun p => decide (p.1 = t))).map (fun p => p.2) := by
  induction pairs with
  | nil => intro acc t; simp
  | cons p rest ih =>
    intro acc t
    simp only [List.foldl_cons, List.filter_cons]
    by_cases h : p.1 = t
    · subst h
      simp [ih, itemsFor_addScore]
    · have h2 : ¬ t = p.1 := fun hh => h hh.symm
      simp [ih, itemsFor_addScore, h, h2]

/-- Claim C1 (counterexample): the claim asserts that on capture failure
an empty capture is synthesized so that the response log still reaches
the full item count.  In the code (AudioRecorder 86-89) a capture failure
only logs and alerts; with the standard paper and every capture failing,
the finished run log contains no synthesized record at all - the log is
empty, the Scoring state is never reached, while the paper has 12 items. -/
theorem responses_not_synthesized_on_failure :
    (runTest stdPaper (fun _ => none) 12).2.1 = [] ∧
    (runTest stdPaper (fun _ => none) 12).2.2 = false ∧
    totalItemCount stdPaper = 12 :=
  ⟨rfl, rfl, rfl⟩

/-- Claim C1 (amended): for every run that reaches the Scoring state -
equivalently, every capture succeeded - the response log holds exactly one
UserResponse per item, totalling the item count across all sections
(2 SpeakingA + 1 SpeakingB + 2 SpeakingC + 1 SpeakingD + 4 ListeningA +
2 ListeningB = 12 for a standard-shape paper), in section order; no empty
capture is synthesized on capture failure (such a run never reaches
Scoring). -/
theorem run_response_count_complete
    (pid a1 a2 bT : String) (c1 c2 : SituationItem) (d : SpeakingDSection)
    (l1 l2 l3 l4 lp : String) (q1 q2 : ListeningBQuestion)
    (bs : Nat → Blob) :
    let paper : TestPaper :=
      { id := pid, speakingA := { items := [a1, a2] },
        speakingB := { text := bT }, speakingC := { items := [c1, c2] },
        speakingD := d, listeningA := { questions := [l1, l2, l3, l4] },
        listeningB := { passage := lp, questions := [q1, q2] } }
    let out := runTest paper (fun k => some (bs k)) 12
    out.2.2 = true ∧ out.2.1.length = totalItemCount paper ∧
      out.2.1.map (fun r => r.sectionType) =
        [.SpeakingA, .SpeakingA, .SpeakingB, .SpeakingC, .SpeakingC,
         .SpeakingD, .ListeningA, .ListeningA, .ListeningA, .ListeningA,
         .ListeningB, .ListeningB] :=
  ⟨rfl, rfl, rfl⟩

/-- Claim C2 (counterexample): with the standard paper, a successful first
capture and a failing second capture, the run holds exactly the one
response of the first item and never reaches Scoring - the failed item
gets no synthesized empty capture and the run does not continue to the
next item, contradicting the claim that a single capture failure never
aborts the exam. -/
theorem capture_failure_run_stops :
    (runTest stdPaper (fun k => if k = 0 then some [7] else none) 12).2.1.length = 1 ∧
    (runTest stdPaper (fun k => if k = 0 then some [7] else none) 12).2.2 = false :=
  ⟨rfl, rfl⟩

/-- Claim C2 (amended): if the audio-capture collaborator throws (e.g.
microphone access fails), AudioRecorder.start logs the failure and shows
an alert, but synthesizes no empty capture and never invokes
onRecordingComplete: the run emits the item's flow events, appends no
response, and stalls without reaching Scoring. -/
theorem capture_failure_stalls (paper : TestPaper)
    (captures : Nat → Option Blob) (fuel k : Nat) (st : RunState)
    (h : captures k = none) :
    runExam paper captures (fuel + 1) k st =
      (runSectionFlow paper st, [], false) ∧
    (∀ o : SetupOutcome, o.getUserMediaOk = false →
      (startRecorder o).callbackInvoked = false ∧
      (startRecorder o).streamAcquired = false) := by
  constructor
  · simp [runExam, h]
  · intro o ho
    simp [startRecorder, ho]

/-- Witness for capture_failure_stalls at the standard paper with a
failing first capture. -/
theorem capture_failure_stalls_witness :
    runExam stdPaper (fun _ => none) 1 0 initialRunState =
      (runSectionFlow stdPaper initialRunState, [], false) :=
  (capture_failure_stalls stdPaper (fun _ => none) 0 0 initialRunState rfl).1

/-- Claim C3: a rejected scoring submission is caught by
processExamResults and the item omitted from the aggregate, the loop is
not aborted, the progress counter passes (1, n) ... (n, n) before the
status moves to Review; in particular a rejection on the 2nd of 3
submissions yields exactly 2 score records while the progress counter
still reaches (3, 3).  (A Gemini-call failure inside evaluateAudio is
converted there into the default zero result and is not an omission; the
rejection path is a blobToBase64 failure.) -/
theorem scoring_failure_omits_item (rs : List UserResponse)
    (outcomes : Nat → ScoreOutcome) :
    (processExamResults rs outcomes).1 =
      (List.range rs.length).map (fun j => (j + 1, rs.length)) ∧
    sumItems (processExamResults rs outcomes).2.1 =
      (successPairs outcomes rs 0).length ∧
    (processExamResults rs outcomes).2.2 = AppStatus.Review ∧
    (∀ (r0 r1 r2 : UserResponse) (e0 e2 : EvaluationResult),
      sumItems (processExamResults [r0, r1, r2]
          (fun j => if j = 0 then ScoreOutcome.ok e0 else
                    if j = 1 then ScoreOutcome.blobError else
                    ScoreOutcome.ok e2)).2.1 = 2 ∧
      (processExamResults [r0, r1, r2]
          (fun j => if j = 0 then ScoreOutcome.ok e0 else
                    if j = 1 then ScoreOutcome.blobError else
                    ScoreOutcome.ok e2)).1 = [(1, 3), (2, 3), (3, 3)]) := by
  refine ⟨?_, ?_, rfl, ?_⟩
  · have h := scoringLoop_progress outcomes rs.length rs 0 []
    simpa [processExamResults] using h
  · have h := scoringLoop_scores outcomes rs.length rs 0 []
    have h2 := sumItems_foldl (successPairs outcomes rs 0) []
    simp only [processExamResults, h, h2]
    simp [sumItems]
  · intro r0 r1 r2 e0 e2
    constructor
    · have h := scoringLoop_scores
        (fun j => if j = 0 then ScoreOutcome.ok e0 else
                  if j = 1 then ScoreOutcome.blobError else
                  ScoreOutcome.ok e2) 3 [r0, r1, r2] 0 []
      have h2 := sumItems_foldl
        (successPairs (fun j => if j = 0 then ScoreOutcome.ok e0 else
                  if j = 1 then ScoreOutcome.blobError else
                  ScoreOutcome.ok e2) [r0, r1, r2] 0) []
      simp only [processExamResults, List.length_cons, List.length_nil] at h ⊢
      rw [h, h2]
      rfl
    · have h := scoringLoop_progress
        (fun j => if j = 0 then ScoreOutcome.ok e0 else
                  if j = 1 then ScoreOutcome.blobError else
                  ScoreOutcome.ok e2) 3 [r0, r1, r2] 0 []
      simp only [processExamResults, List.length_cons, List.length_nil] at h ⊢
      rw [h]
      rfl

/-- Claim C4: in every complete run of a standard-shape paper the rest
interval is emitted exactly 5 times (6 sections - 1) and only at section
boundaries: the sub-trace of record and rest events shows a rest between
each pair of adjacent sections and never between two items of the same
section. -/
theorem rest_intervals_between_sections
    (pid a1 a2 bT : String) (c1 c2 : SituationItem) (d : SpeakingDSection)
    (l1 l2 l3 l4 lp : String) (q1 q2 : ListeningBQuestion)
    (bs : Nat → Blob) :
    let paper : TestPaper :=
      { id := pid, speakingA := { items := [a1, a2] },
        speakingB := { text := bT }, speakingC := { items := [c1, c2] },
        speakingD := d, listeningA := { questions := [l1, l2, l3, l4] },
        listeningB := { passage := lp, questions := [q1, q2] } }
    let events := (runTest paper (fun k => some (bs k)) 12).1
    (events.filter isRest).length = 5 ∧
      events.filter isRecordOrRest =
        [.record .SpeakingA 0 0, .record .SpeakingA 1 0, .rest,
         .record .SpeakingB 0 0, .rest,
         .record .SpeakingC 0 0, .record .SpeakingC 1 0, .rest,
         .record .SpeakingD 0 0, .rest,
         .record .ListeningA 0 0, .record .ListeningA 1 0,
         .record .ListeningA 2 0, .record .ListeningA 3 0, .rest,
         .record .ListeningB 0 0, .record .ListeningB 1 0] :=
  ⟨rfl, rfl⟩

/-- Claim C5 (counterexample): the claim says the preamble audio plays
exactly once per distinct preamble; runListeningB (App 217-227) plays the
passage twice when the sub-question index is 0, so a complete run of the
standard paper contains two passage playback events, not one. -/
theorem passage_played_twice :
    ((runTest stdPaper (fun k => some [k]) 12).1.filter isPassagePlay).length = 2 ∧
    ((((runTest stdPaper (fun k => some [k]) 12).1.filter isPassagePlay).length == 1) = false) :=
  ⟨rfl, rfl⟩

/-- Claim C5 (amended): the ListeningB preamble passage is played only
when the sub-question index is 0 - twice in immediate succession there
(the passage is read twice) - and never again before any later
sub-question: in the sub-trace of passage playbacks and ListeningB
records, both playbacks precede the first sub-question record and none
separates later sub-question records. -/
theorem passage_preamble_only_first_subquestion
    (pid a1 a2 bT : String) (c1 c2 : SituationItem) (d : SpeakingDSection)
    (l1 l2 l3 l4 lp : String) (q1 q2 : ListeningBQuestion)
    (bs : Nat → Blob) :
    let paper : TestPaper :=
      { id := pid, speakingA := { items := [a1, a2] },
        speakingB := { text := bT }, speakingC := { items := [c1, c2] },
        speakingD := d, listeningA := { questions := [l1, l2, l3, l4] },
        listeningB := { passage := lp, questions := [q1, q2] } }
    ((runTest paper (fun k => some (bs k)) 12).1.filter isPassageOrLBRecord) =
      [.playPassage, .playPassage, .record .ListeningB 0 0,
       .record .ListeningB 1 0] :=
  rfl

/-- Claim C6: the aggregate produced by processExamResults is the
sequential, capture-order fold of the successful submissions; grouping
preserves arrival order within each section tag (the items stored for a
tag are exactly the tag's results in submission order); and grouping the
same log twice yields identical aggregates. -/
theorem grouping_preserves_order (rs : List UserResponse)
    (outcomes : Nat → ScoreOutcome) :
    (processExamResults rs outcomes).2.1 =
      groupScores (successPairs outcomes rs 0) ∧
    (∀ (pairs : List (TestSectionType × EvaluationResult))
        (t : TestSectionType),
      itemsFor (groupScores pairs) t =
        (pairs.filter (fun p => decide (p.1 = t))).map (fun p => p.2)) ∧
    (∀ log1 log2 : List (TestSectionType × EvaluationResult),
      log1 = log2 → groupScores log1 = groupScores log2) := by
  refine ⟨?_, ?_, ?_⟩
  · have h := scoringLoop_scores outcomes rs.length rs 0 []
    simpa [processExamResults, groupScores] using h
  · intro pairs t
    have h := itemsFor_groupScores_aux pairs [] t
    simpa [groupScores, itemsFor_nil] using h
  · intro log1 log2 h
    rw [h]

/-- Witness for grouping_preserves_order at the empty log, discharging
the idempotent-regrouping hypothesis with a concrete equal pair of
logs. -/
theorem grouping_preserves_order_witness :
    (processExamResults [] (fun _ => ScoreOutcome.blobError)).2.1 =
      groupScores (successPairs (fun _ => ScoreOutcome.blobError) [] 0) ∧
    groupScores [] = groupScores [] :=
  ⟨(grouping_preserves_order [] (fun _ => ScoreOutcome.blobError)).1,
   (grouping_preserves_order [] (fun _ => ScoreOutcome.blobError)).2.2 [] [] rfl⟩

/-- Claim C7 (counterexample): the claim asserts an abort() control entry
point; the App wires no abort control - the control surface holds only
start generation, start test, restart and the recorder's early stop. -/
theorem no_abort_entry_point :
    controlEntryPoints.contains "abort" = false := rfl

/-- Claim C7 (amended): the only control entry points are startGeneration,
startTest, restart and the recorder's early stop; no abort() exists, and
the countdown suspension points cannot be interrupted: runTimer always
emits its full tick sequence. -/
theorem control_surface_and_timers :
    controlEntryPoints =
      ["startGeneration", "startTest", "restart", "stopRecordingEarly"] ∧
    controlEntryPoints.contains "abort" = false ∧
    ∀ s : Nat, (runTimerTicks s).length = s := by
  refine ⟨rfl, rfl, ?_⟩
  intro s
  induction s with
  | zero => rfl
  | succ n ih => simp [runTimerTicks, ih]

/-- Claim C8 (counterexample): when getUserMedia succeeds but a later
setup step throws (here the MediaRecorder construction), the catch block
of AudioRecorder.start neither stops the recording nor releases the
acquired stream: the stream stays held on that exit path. -/
theorem setup_exception_leaks_stream :
    (startRecorder { getUserMediaOk := true, audioContextOk := true,
                     mediaRecorderOk := false }).streamAcquired = true ∧
    (startRecorder { getUserMediaOk := true, audioContextOk := true,
                     mediaRecorderOk := false }).streamReleased = false :=
  ⟨rfl, rfl⟩

/-- Claim C8 (amended): the stream is released on normal stop and on early
stop (both run the onstop handler, which calls cleanup); when getUserMedia
itself fails no stream is ever acquired; but when a setup step after
acquisition fails, start returns with the stream acquired and not
released - release on that path would only happen at component unmount. -/
theorem stream_release_paths :
    (∀ chunks : List Blob, (recorderOnStop chunks).2 = true) ∧
    (∀ o : SetupOutcome, o.getUserMediaOk = false →
      (startRecorder o).streamAcquired = false) ∧
    (∀ o : SetupOutcome, o.getUserMediaOk = true →
      (o.audioContextOk = false ∨ o.mediaRecorderOk = false) →
      (startRecorder o).streamAcquired = true ∧
      (startRecorder o).streamReleased = false) := by
  refine ⟨fun chunks => rfl, ?_, ?_⟩
  · intro o ho
    simp [startRecorder, ho]
  · intro o ho hcase
    rcases hcase with hcase | hcase
    · simp [startRecorder, ho, hcase]
    · by_cases hac : o.audioContextOk <;>
        simp [startRecorder, ho, hac, hcase]

/-- Witness for stream_release_paths at concrete chunk lists and setup
outcomes. -/
theorem stream_release_paths_witness :
    (recorderOnStop [[1]]).2 = true ∧
    (startRecorder { getUserMediaOk := false, audioContextOk := true,
                     mediaRecorderOk := true }).streamAcquired = false ∧
    (startRecorder { getUserMediaOk := true, audioContextOk := false,
                     mediaRecorderOk := true }).streamReleased = false :=
  ⟨stream_release_paths.1 [[1]],
   stream_release_paths.2.1 _ rfl,
   (stream_release_paths.2.2 _ rfl (Or.inl rfl)).2⟩

/-- Claim C9 (counterexample): a paper whose first ListeningB question has
a recording duration of 0 is accepted unchanged by the generation step and
moves the app to TestReady - plan construction does not reject it. -/
theorem zero_duration_paper_accepted :
    generateTestPaperAccept zeroRecordPaper = some zeroRecordPaper ∧
    (startGeneration (generateTestPaperAccept zeroRecordPaper)).1 =
      AppStatus.TestReady ∧
    (zeroRecordPaper.listeningB.questions.getD 0 ⟨"", "", "", 0, 1⟩).recordTime = 0 :=
  ⟨rfl, rfl, rfl⟩

/-- Claim C9 (amended): plan construction performs no duration validation:
generateTestPaper returns the parsed paper as-is and startGeneration moves
to TestReady on every successfully parsed paper, including one with a zero
(or negative) recording duration; only a generation failure keeps the app
in Idle. -/
theorem no_duration_validation :
    (∀ p : TestPaper, generateTestPaperAccept p = some p) ∧
    (∀ p : TestPaper, (startGeneration (some p)).1 = AppStatus.TestReady) ∧
    (startGeneration none).1 = AppStatus.Idle :=
  ⟨fun _ => rfl, fun _ => rfl, rfl⟩

/-- Claim C10 (counterexample): the JS fallback recordTime || 30 catches
only a falsy (zero or missing) recordTime; a negative recordTime passes
through, so with a paper whose first ListeningB question has
recordTime = -1 the recorder is given a negative duration. -/
theorem negative_record_duration_passes_through :
    getRecordDuration (some negRecordPaper) TestSectionType.ListeningB 0 = -1 ∧
    getRecordDuration (some negRecordPaper) TestSectionType.ListeningB 0 < 0 := by
  constructor
  · rfl
  · decide

/-- Claim C10 (amended): provided every ListeningB recordTime in the
loaded paper is nonnegative, the duration supplied to the recorder is
strictly positive - the fixed values 15/30/20/60/5 for SpeakingA-D and
ListeningA, the question's own recordTime when nonzero, 30 when the
question is missing or its recordTime is 0, and 10 when no paper is
loaded. -/
theorem record_duration_positive_when_nonneg (tp : TestPaper)
    (sec : TestSectionType) (i : Nat)
    (h : ∀ q ∈ tp.listeningB.questions, 0 ≤ q.recordTime) :
    0 < getRecordDuration (some tp) sec i ∧
    getRecordDuration none sec i = 10 ∧
    getRecordDuration (some tp) TestSectionType.SpeakingA i = 15 ∧
    getRecordDuration (some tp) TestSectionType.SpeakingB i = 30 ∧
    getRecordDuration (some tp) TestSectionType.SpeakingC i = 20 ∧
    getRecordDuration (some tp) TestSectionType.SpeakingD i = 60 ∧
    getRecordDuration (some tp) TestSectionType.ListeningA i = 5 := by
  refine ⟨?_, rfl, rfl, rfl, rfl, rfl, rfl⟩
  cases sec with
  | SpeakingA => simp [getRecordDuration]
  | SpeakingB => simp [getRecordDuration]
  | SpeakingC => simp [getRecordDuration]
  | SpeakingD => simp [getRecordDuration]
  | ListeningA => simp [getRecordDuration]
  | ListeningB =>
    cases hq : tp.listeningB.questions[i]? with
    | none => simp [getRecordDuration, hq]
    | some q =>
      have hmem : q ∈ tp.listeningB.questions := List.getElem?_mem hq
      have hge := h q hmem
      by_cases hz : q.recordTime = 0
      · simp [getRecordDuration, hq, hz]
      · simp [getRecordDuration, hq, hz]
        omega

/-- Witness for record_duration_positive_when_nonneg at the standard
paper, whose ListeningB recording durations are 30 and 60. -/
theorem record_duration_positive_when_nonneg_witness :
    0 < getRecordDuration (some stdPaper) TestSectionType.ListeningB 0 :=
  (record_duration_positive_when_nonneg stdPaper TestSectionType.ListeningB 0
    (by decide)).1

end BingoSpeaking
